import Mathlib

/-!
Verification of the detection engine in `src/data_filtering.py` of the
Smart-Hospital-System repository: the scalar Kalman filter, the
Isolation-Forest training wrapper `train_model`, the detection pass
`run_detection` with its anomalies ledger, its MQTT publications and the
module-level flags `abnormal_detected` / `robot_moved`, and the
bottom-of-file main loop.

Modelling conventions:
- numeric values are rationals (the Python floats carry no overflow /
  rounding concern relevant to the verified claims);
- the IsolationForest internals are out of scope (the spec uses only its
  fit/classify contract), so `model.predict` is an abstract boolean
  function `classify`, and `train_model` records only trained/untrained;
- database and MQTT failures (psycopg2 / paho / float() exceptions) are
  modelled by an injected exception point `fail : Option Step`; the
  `except` handler performs `conn.rollback()` and returns, exactly as in
  `run_detection`;
- the anomalies table is a pair committed/pending: `cursor.execute INSERT`
  appends to pending, `conn.commit()` moves pending to committed,
  `conn.rollback()` drops pending; the dedupe SELECT runs inside the same
  transaction and therefore sees committed rows plus the pass's own
  pending rows.
-/

namespace DataFiltering

/-- State of one `KalmanFilter` instance.  All instances built by
`initialize_kalman_filter` have 1x1 matrices with F = H = 1, so the state
reduces to the scalar estimate `x` and covariance `P`. -/
structure KF where
  x : ℚ
  P : ℚ
deriving DecidableEq

/-- Process noise Q = 0.05 from `initialize_kalman_filter`. -/
def qNoise : ℚ := 1/20

/-- Measurement noise R = 0.1 from `initialize_kalman_filter`. -/
def rNoise : ℚ := 1/10

/-- `KalmanFilter.predict`: x := F·x = x and P := F·P·Fᵀ + Q = P + Q. -/
def KF.predict (kf : KF) : KF := ⟨kf.x, kf.P + qNoise⟩

/-- The Kalman gain K = P·Hᵀ·S⁻¹ = P / (P + R) computed inside
`KalmanFilter.update` (S = H·P·Hᵀ + R = P + R). -/
def KF.gain (kf : KF) : ℚ := kf.P / (kf.P + rNoise)

/-- `KalmanFilter.update z`: y = z − H·x, x := x + K·y,
P := (I − K·H)·P = (1 − K)·P. -/
def KF.update (kf : KF) (z : ℚ) : KF :=
  ⟨kf.x + kf.gain * (z - kf.x), (1 - kf.gain) * kf.P⟩

/-- The two sensor types of `sensor_config`. -/
inductive SensorType
  | sound
  | light
deriving DecidableEq

/-- The feature columns appearing in `sensor_config`. -/
inductive Feature
  | rms
  | zcr
  | light_level
deriving DecidableEq

/-- `sensor_config[sensor]["columns"]`. -/
def columns : SensorType → List Feature
  | .sound => [.rms, .zcr]
  | .light => [.light_level]

/-- `initialize_kalman_filter(sensor_type, feature)`: initial state x0 per
sensor/feature (0.008 for sound rms, 0.010 for sound zcr, 12 for light
light_level, 0 otherwise), with P = 1. -/
def kfInit (s : SensorType) (f : Feature) : KF :=
  match s, f with
  | .sound, .rms => ⟨1/125, 1⟩
  | .sound, .zcr => ⟨1/100, 1⟩
  | .light, .light_level => ⟨12, 1⟩
  | _, _ => ⟨0, 1⟩

/-- The `detection_method` column of an inserted anomalies row. -/
inductive Method
  | isolationForest
  | kalmanFilter
deriving DecidableEq

/-- Row of the `anomalies` table as inserted by `run_detection`; the `db`
column is always NULL in this script and is omitted. -/
structure AnomalyRecord where
  patient_id : ℤ
  sensor : SensorType
  rms : Option ℚ
  zcr : Option ℚ
  method : Method
  timestamp : ℤ
deriving DecidableEq

/-- The anomalies table split into committed rows and the current
transaction's uncommitted (pending) rows. -/
structure DB where
  committed : List AnomalyRecord
  pending : List AnomalyRecord
deriving DecidableEq

/-- `cursor.execute(INSERT INTO anomalies ...)`: adds an uncommitted row. -/
def DB.insert (db : DB) (r : AnomalyRecord) : DB :=
  ⟨db.committed, db.pending ++ [r]⟩

/-- `conn.commit()`. -/
def DB.commit (db : DB) : DB := ⟨db.committed ++ db.pending, []⟩

/-- `conn.rollback()`. -/
def DB.rollback (db : DB) : DB := ⟨db.committed, []⟩

/-- The dedupe query `SELECT COUNT(*) FROM anomalies WHERE timestamp = %s
AND sensor_type = %s` (> 0).  It runs inside the pass's transaction and
therefore sees committed rows and the transaction's own pending rows. -/
def DB.existsAt (db : DB) (ts : ℤ) (s : SensorType) : Bool :=
  (db.committed ++ db.pending).any fun r => r.timestamp == ts && r.sensor == s

/-- Observable actions of a pass that leave no trace in the data otherwise
(used to state that a short-circuited pass fetches nothing and invokes
neither detector). -/
inductive Event
  | fetchEv
  | classifyEv
  | estimatorEv
deriving DecidableEq

/-- MQTT messages published by the pass: `robot/move` with the fixed
payload {x: 0, y: 1} and `web/alert` with the fixed alert text. -/
inductive Msg
  | robotMove
  | webAlert
deriving DecidableEq

/-- The process-wide state touched by `run_detection`: the two module-level
flags, the database, the per-sensor Kalman filter lists
(`kalman_filters[sensor]`), the published MQTT messages and the event
trace. -/
structure GState where
  abnormal_detected : Bool
  robot_moved : Bool
  db : DB
  kfsSound : List KF
  kfsLight : List KF
  msgs : List Msg
  events : List Event
deriving DecidableEq

/-- `kalman_filters[sensor]`. -/
def GState.kfs (g : GState) : SensorType → List KF
  | .sound => g.kfsSound
  | .light => g.kfsLight

/-- Replace `kalman_filters[sensor]` (the in-place mutations of the loop). -/
def GState.setKfs (g : GState) : SensorType → List KF → GState
  | .sound, l => { g with kfsSound := l }
  | .light, l => { g with kfsLight := l }

/-- The `except` handler's `conn.rollback()` applied to the state. -/
def GState.rb (g : GState) : GState := { g with db := g.db.rollback }

/-- `abnormal_detected = True; robot_moved = True` (the check-and-set in the
confirmed-sound branch). -/
def fireFlags (g : GState) : GState :=
  { g with abnormal_detected := true, robot_moved := true }

/-- Insert one row and commit it (every insert in `run_detection` is
immediately followed by `conn.commit()`). -/
def commitRec (g : GState) (rec : AnomalyRecord) : GState :=
  { g with db := (g.db.insert rec).commit }

/-- The latest `smart_room_readings` row fetched for a sensor type:
id, patient_id, the feature values (already coerced; a failing `float()`
is modelled as a `Step.coerce` exception), timestamp. -/
structure Reading where
  record_id : ℤ
  patient_id : ℤ
  values : List ℚ
  timestamp : ℤ
deriving DecidableEq

/-- Points of `run_detection` at which the modelled exception can be
raised: the two SELECTs, the float() coercion, `model.predict`, the two
INSERT/commit pairs, the Kalman numpy section, and the MQTT publish. -/
inductive Step
  | fetch
  | dedupe
  | coerce
  | classifyStep
  | insertIF
  | commitIF
  | kalmanLoop
  | insertKF
  | commitKF
  | publish
deriving DecidableEq

/-- The per-feature out-of-range test of the sound confirmation branch:
`val < 0.01 or val > 0.03` for rms, `val < 0.003 or val > 0.02` for zcr;
any other column never counts. -/
def outsideBand (f : Feature) (v : ℚ) : Bool :=
  match f with
  | .rms => v < 1/100 || v > 3/100
  | .zcr => v < 3/1000 || v > 1/50
  | .light_level => false

/-- `abnormal_count == len(columns)` for the band test, counting over the
features paired with their values. -/
def allOutsideBands (cols : List Feature) (vals : List ℚ) : Bool :=
  ((cols.zip vals).countP fun p => outsideBand p.1 p.2) == cols.length

/-- Per-feature residual threshold of the Kalman section: 0.001 for rms and
zcr, 1 otherwise. -/
def kfThreshold (f : Feature) : ℚ :=
  match f with
  | .rms => 1/1000
  | .zcr => 1/1000
  | .light_level => 1

/-- The Kalman loop of `run_detection`: for each feature, `predict()` then
`update(val)`, residual = |x − val| on the updated state, counting the
features whose residual exceeds their threshold.  Returns the updated
filter list and the abnormal count.  (In the script the three lists always
have equal length — the SELECT returns one value per configured column.) -/
def kalmanSweep : List Feature → List ℚ → List KF → List KF × Nat
  | f :: fs, v :: vs, kf :: kfs =>
    let kf1 := (kf.predict).update v
    let rest := kalmanSweep fs vs kfs
    (kf1 :: rest.1, (if kfThreshold f < |kf1.x - v| then 1 else 0) + rest.2)
  | _, _, kfs => (kfs, 0)

/-- The classifier confirmation: a raw outlier verdict is confirmed for
sound only when every feature is outside its band, for light
unconditionally. -/
def ifConfirmed (s : SensorType) (pred : Bool) (vals : List ℚ) : Bool :=
  pred &&
    (match s with
     | .sound => allOutsideBands (columns .sound) vals
     | .light => true)

/-- The estimator confirmation: every feature's residual above its
threshold (`abnormal_count == len(columns)` in the Kalman section). -/
def kfConfirmed (s : SensorType) (vals : List ℚ) (kfs : List KF) : Bool :=
  (kalmanSweep (columns s) vals kfs).2 == (columns s).length

/-- The Isolation-Forest anomalies row: for sound it stores values[0] and
values[1] in the rms/zcr columns, for light it stores NULLs. -/
def ifRecord (s : SensorType) (pid : ℤ) (vals : List ℚ) (ts : ℤ) :
    AnomalyRecord :=
  match s with
  | .sound => ⟨pid, .sound, vals[0]?, vals[1]?, .isolationForest, ts⟩
  | .light => ⟨pid, .light, none, none, .isolationForest, ts⟩

/-- The Kalman-Filter anomalies row (same value layout for both sensors:
`values[0] if len(values) > 0 else None`, likewise values[1]). -/
def kfRec (s : SensorType) (pid : ℤ) (vals : List ℚ) (ts : ℤ) :
    AnomalyRecord :=
  ⟨pid, s, vals[0]?, vals[1]?, .kalmanFilter, ts⟩

/-- The Isolation-Forest section of `run_detection` (after `model.predict`
returned `pred`): for sound, insert and commit one row only when every
feature is out of its band; for light, insert and commit unconditionally.
`.error` is an uncaught exception, carrying the rolled-back state; the
returned boolean is `isolation_forest_abnormal`. -/
def ifStage (s : SensorType) (pred : Bool) (pid : ℤ) (vals : List ℚ)
    (ts : ℤ) (fail : Option Step) (g : GState) :
    Except GState (GState × Bool) :=
  if pred then
    match s with
    | .sound =>
      if allOutsideBands (columns .sound) vals then
        if fail == some .insertIF then .error g.rb
        else
          let g1 : GState := { g with db := g.db.insert (ifRecord .sound pid vals ts) }
          if fail == some .commitIF then .error g1.rb
          else .ok ({ g1 with db := g1.db.commit }, true)
      else .ok (g, false)
    | .light =>
      if fail == some .insertIF then .error g.rb
      else
        let g1 : GState := { g with db := g.db.insert (ifRecord .light pid vals ts) }
        if fail == some .commitIF then .error g1.rb
        else .ok ({ g1 with db := g1.db.commit }, true)
  else .ok (g, false)

/-- State after the Kalman loop body ran: updated filters, estimator event
recorded. -/
def kfBase (s : SensorType) (vals : List ℚ) (g : GState) : GState :=
  let g1 := g.setKfs s (kalmanSweep (columns s) vals (g.kfs s)).1
  { g1 with events := g1.events ++ [.estimatorEv] }

/-- The Kalman section of `run_detection`: run the loop (`kfBase`), and when
every feature's residual exceeds its threshold (`kfConfirmed`, the
`abnormal_count == len(columns)` test) insert and commit one row.  The
returned boolean is `kalman_filter_abnormal`; an exception during the
insert or the commit rolls back the pending row, leaving
`(kfBase ...).rb`. -/
def kfStage (s : SensorType) (pid : ℤ) (vals : List ℚ) (ts : ℤ)
    (fail : Option Step) (g : GState) : Except GState (GState × Bool) :=
  if fail == some .kalmanLoop then .error g.rb
  else if kfConfirmed s vals (g.kfs s) then
    if fail == some .insertKF then .error (kfBase s vals g).rb
    else if fail == some .commitKF then .error (kfBase s vals g).rb
    else .ok (commitRec (kfBase s vals g) (kfRec s pid vals ts), true)
  else .ok (kfBase s vals g, false)

/-- The final section of `run_detection`: when the sensor is sound and both
methods confirmed, check-and-set the module flags and publish the two MQTT
messages (`if not robot_moved: abnormal_detected = True; robot_moved =
True; publish; publish`). -/
def latchStage (s : SensorType) (ifA kfA : Bool) (fail : Option Step)
    (g : GState) : Except GState GState :=
  if s == .sound && ifA && kfA then
    if g.robot_moved then .ok g
    else if fail == some .publish then .error (fireFlags g).rb
    else .ok { fireFlags g with msgs := (fireFlags g).msgs ++ [.robotMove, .webAlert] }
  else .ok g

/-- `run_detection(sensor_type, columns, table, model, kf_list)`.
`classify` abstracts `model.predict` (-1 ↦ true); `reading` is the latest
row or none; `fail` injects at most one exception, and the `except`
handler performs `conn.rollback()` and returns. -/
def runDetection (s : SensorType) (classify : List ℚ → Bool)
    (reading : Option Reading) (fail : Option Step) (g : GState) : GState :=
  if g.abnormal_detected then g
  else if fail == some .fetch then g.rb
  else
    match reading with
    | none => { g with events := g.events ++ [.fetchEv] }
    | some r =>
      let g0 : GState := { g with events := g.events ++ [.fetchEv] }
      if fail == some .dedupe then g0.rb
      else if g0.db.existsAt r.timestamp s then g0
      else if fail == some .coerce then g0.rb
      else if fail == some .classifyStep then g0.rb
      else
        let gc : GState := { g0 with events := g0.events ++ [.classifyEv] }
        let pred := classify r.values
        match ifStage s pred r.patient_id r.values r.timestamp fail gc with
        | .error gf => gf
        | .ok (g1, ifA) =>
          match kfStage s r.patient_id r.values r.timestamp fail g1 with
          | .error gf => gf
          | .ok (g2, kfA) =>
            match latchStage s ifA kfA fail g2 with
            | .error gf => gf
            | .ok g3 => g3

/-- Inputs of one invocation of `run_detection`. -/
structure PassInput where
  sensor : SensorType
  classify : List ℚ → Bool
  reading : Option Reading
  fail : Option Step

/-- One invocation of `run_detection`. -/
def runPass (g : GState) (inp : PassInput) : GState :=
  runDetection inp.sensor inp.classify inp.reading inp.fail g

/-- A sequence of detection passes over the shared process state. -/
def runPasses (inputs : List PassInput) (g : GState) : GState :=
  inputs.foldl runPass g

/-- One row of trainingData.csv: the label column and the feature
columns. -/
structure TrainRow where
  label : String
  rms : ℚ
  zcr : ℚ
  light_level : ℚ

/-- The filtering in `train_model`: keep rows with label == 'normal' inside
the per-sensor safe range (0.001 ≤ rms ≤ 0.03 and 0.009 ≤ zcr ≤ 0.04 for
sound; 0 ≤ light_level ≤ 25 for light), projected to the sensor's
columns. -/
def trainFilter (s : SensorType) (rows : List TrainRow) : List (List ℚ) :=
  let normal := rows.filter fun r => r.label == "normal"
  match s with
  | .sound =>
    (normal.filter fun r =>
      decide ((1 : ℚ)/1000 ≤ r.rms) && decide (r.rms ≤ (3 : ℚ)/100) &&
      decide ((9 : ℚ)/1000 ≤ r.zcr) && decide (r.zcr ≤ (1 : ℚ)/25)).map
      fun r => [r.rms, r.zcr]
  | .light =>
    (normal.filter fun r =>
      decide ((0 : ℚ) ≤ r.light_level) && decide (r.light_level ≤ (25 : ℚ))).map
      fun r => [r.light_level]

/-- `train_model(sensor_name, cfg)`: fitting succeeds iff the filtered
normal set has at least 3 samples; otherwise the function returns None and
the classifier stays untrained.  The fitted forest itself is abstract
(only the fit/classify contract is in scope). -/
def train_model (s : SensorType) (rows : List TrainRow) : Option Unit :=
  if 3 ≤ (trainFilter s rows).length then some () else none

/-- Per-sensor runtime inputs of the main loop (the trained model's
classify behaviour, the latest reading, the injected failure). -/
structure PassParams where
  classify : List ℚ → Bool
  reading : Option Reading
  fail : Option Step

/-- Iteration order of `sensor_config` (Python dict insertion order:
light first, then sound). -/
def sensorOrder : List SensorType := [.light, .sound]

/-- The bottom-of-file main loop: train one model per sensor, then
`for sensor in sensor_config: if sensor in models:
run_detection(...)` — a sensor whose training returned None is skipped. -/
def mainLoop (rows : List TrainRow) (prm : SensorType → PassParams)
    (g : GState) : GState :=
  sensorOrder.foldl
    (fun g s =>
      if (train_model s rows).isSome then
        runDetection s (prm s).classify (prm s).reading (prm s).fail g
      else g) g

/-- The process state right after startup: flags False, empty anomalies
table, the `kalman_filters` dict as built from `initialize_kalman_filter`,
nothing published. -/
def initState : GState :=
  { abnormal_detected := false
    robot_moved := false
    db := ⟨[], []⟩
    kfsSound := [kfInit .sound .rms, kfInit .sound .zcr]
    kfsLight := [kfInit .light .light_level]
    msgs := []
    events := [] }

/-- An arbitrary sequence of `predict()` / `update(z)` calls on one
filter. -/
inductive KOp
  | predictOp
  | updateOp (z : ℚ)

/-- Apply one call. -/
def applyOp (kf : KF) : KOp → KF
  | .predictOp => kf.predict
  | .updateOp z => kf.update z

/-- Apply a sequence of calls. -/
def applyOps (kf : KF) (ops : List KOp) : KF := ops.foldl applyOp kf

/-- One predict-then-update cycle on a constant measurement z, as performed
per feature by each detection pass. -/
def cyc (z : ℚ) (kf : KF) : KF := (kf.predict).update z

/-- The n-th post-update residual |x − z| of a filter fed the constant
measurement z (n = 0 is the residual after the first cycle). -/
def seqResid (z : ℚ) (kf0 : KF) (n : ℕ) : ℚ :=
  |((cyc z)^[n + 1] kf0).x - z|

/-- No two rows share (timestamp, sensor type, detection method). -/
def ledgerKeyUnique (l : List AnomalyRecord) : Prop :=
  List.Pairwise
    (fun a b => ¬(a.timestamp = b.timestamp ∧ a.sensor = b.sensor ∧
      a.method = b.method)) l

/-! ### Projection lemmas for the elementary state operations -/

@[simp] lemma rb_committed (g : GState) : g.rb.db.committed = g.db.committed := rfl

@[simp] lemma rb_pending (g : GState) : g.rb.db.pending = [] := rfl

@[simp] lemma rb_abnormal (g : GState) :
    g.rb.abnormal_detected = g.abnormal_detected := rfl

@[simp] lemma rb_robot (g : GState) : g.rb.robot_moved = g.robot_moved := rfl

@[simp] lemma rb_kfs (g : GState) (s : SensorType) : g.rb.kfs s = g.kfs s := by
  cases s <;> rfl

@[simp] lemma rb_msgs (g : GState) : g.rb.msgs = g.msgs := rfl

@[simp] lemma rb_events (g : GState) : g.rb.events = g.events := rfl

@[simp] lemma commitRec_committed (g : GState) (rec : AnomalyRecord) :
    (commitRec g rec).db.committed = g.db.committed ++ (g.db.pending ++ [rec]) := rfl

@[simp] lemma commitRec_pending (g : GState) (rec : AnomalyRecord) :
    (commitRec g rec).db.pending = [] := rfl

@[simp] lemma commitRec_abnormal (g : GState) (rec : AnomalyRecord) :
    (commitRec g rec).abnormal_detected = g.abnormal_detected := rfl

@[simp] lemma commitRec_robot (g : GState) (rec : AnomalyRecord) :
    (commitRec g rec).robot_moved = g.robot_moved := rfl

@[simp] lemma commitRec_msgs (g : GState) (rec : AnomalyRecord) :
    (commitRec g rec).msgs = g.msgs := rfl

@[simp] lemma commitRec_events (g : GState) (rec : AnomalyRecord) :
    (commitRec g rec).events = g.events := rfl

@[simp] lemma commitRec_kfs (g : GState) (rec : AnomalyRecord) (s : SensorType) :
    (commitRec g rec).kfs s = g.kfs s := by cases s <;> rfl

@[simp] lemma kfBase_db (s : SensorType) (vals : List ℚ) (g : GState) :
    (kfBase s vals g).db = g.db := by cases s <;> rfl

@[simp] lemma kfBase_abnormal (s : SensorType) (vals : List ℚ) (g : GState) :
    (kfBase s vals g).abnormal_detected = g.abnormal_detected := by cases s <;> rfl

@[simp] lemma kfBase_robot (s : SensorType) (vals : List ℚ) (g : GState) :
    (kfBase s vals g).robot_moved = g.robot_moved := by cases s <;> rfl

@[simp] lemma kfBase_msgs (s : SensorType) (vals : List ℚ) (g : GState) :
    (kfBase s vals g).msgs = g.msgs := by cases s <;> rfl

@[simp] lemma kfBase_events (s : SensorType) (vals : List ℚ) (g : GState) :
    (kfBase s vals g).events = g.events ++ [.estimatorEv] := by cases s <;> rfl

@[simp] lemma fireFlags_abnormal (g : GState) :
    (fireFlags g).abnormal_detected = true := rfl

@[simp] lemma fireFlags_robot (g : GState) : (fireFlags g).robot_moved = true := rfl

@[simp] lemma fireFlags_db (g : GState) : (fireFlags g).db = g.db := rfl

@[simp] lemma fireFlags_msgs (g : GState) : (fireFlags g).msgs = g.msgs := rfl

@[simp] lemma fireFlags_kfs (g : GState) (s : SensorType) :
    (fireFlags g).kfs s = g.kfs s := by cases s <;> rfl

@[simp] lemma ifRecord_timestamp (s : SensorType) (pid : ℤ) (vals : List ℚ) (ts : ℤ) :
    (ifRecord s pid vals ts).timestamp = ts := by cases s <;> rfl

@[simp] lemma ifRecord_sensor (s : SensorType) (pid : ℤ) (vals : List ℚ) (ts : ℤ) :
    (ifRecord s pid vals ts).sensor = s := by cases s <;> rfl

@[simp] lemma ifRecord_method (s : SensorType) (pid : ℤ) (vals : List ℚ) (ts : ℤ) :
    (ifRecord s pid vals ts).method = .isolationForest := by cases s <;> rfl

@[simp] lemma kfRec_timestamp (s : SensorType) (pid : ℤ) (vals : List ℚ) (ts : ℤ) :
    (kfRec s pid vals ts).timestamp = ts := rfl

@[simp] lemma kfRec_sensor (s : SensorType) (pid : ℤ) (vals : List ℚ) (ts : ℤ) :
    (kfRec s pid vals ts).sensor = s := rfl

@[simp] lemma kfRec_method (s : SensorType) (pid : ℤ) (vals : List ℚ) (ts : ℤ) :
    (kfRec s pid vals ts).method = .kalmanFilter := rfl

/-! ### Stage characterizations -/

/-- The Isolation-Forest section in one normal form: commit exactly one
row when the confirmation policy accepts the outlier verdict. -/
lemma ifStage_eq (s : SensorType) (pred : Bool) (pid : ℤ) (vals : List ℚ)
    (ts : ℤ) (fl : Option Step) (g : GState) :
    ifStage s pred pid vals ts fl g =
      (if ifConfirmed s pred vals then
        if fl == some .insertIF then .error g.rb
        else if fl == some .commitIF then .error g.rb
        else .ok (commitRec g (ifRecord s pid vals ts), true)
      else .ok (g, false)) := by
  cases s with
  | sound =>
    cases pred with
    | false => simp [ifStage, ifConfirmed]
    | true =>
      by_cases hb : allOutsideBands (columns .sound) vals
      · simp only [ifStage, ifConfirmed, hb, Bool.true_and, if_true]
        split
        · rfl
        · split <;> rfl
      · simp [ifStage, ifConfirmed, hb]
  | light =>
    cases pred with
    | false => simp [ifStage, ifConfirmed]
    | true =>
      simp only [ifStage, ifConfirmed, Bool.true_and, if_true]
      split
      · rfl
      · split <;> rfl

@[simp] lemma events_update_db (g : GState) (e : List Event) :
    ({ g with events := e } : GState).db = g.db := rfl

@[simp] lemma events_update_abnormal (g : GState) (e : List Event) :
    ({ g with events := e } : GState).abnormal_detected = g.abnormal_detected := rfl

@[simp] lemma events_update_robot (g : GState) (e : List Event) :
    ({ g with events := e } : GState).robot_moved = g.robot_moved := rfl

@[simp] lemma events_update_msgs (g : GState) (e : List Event) :
    ({ g with events := e } : GState).msgs = g.msgs := rfl

@[simp] lemma events_update_kfs (g : GState) (e : List Event) (s : SensorType) :
    ({ g with events := e } : GState).kfs s = g.kfs s := by cases s <;> rfl

@[simp] lemma msgs_update_db (g : GState) (m : List Msg) :
    ({ g with msgs := m } : GState).db = g.db := rfl

@[simp] lemma msgs_update_abnormal (g : GState) (m : List Msg) :
    ({ g with msgs := m } : GState).abnormal_detected = g.abnormal_detected := rfl

@[simp] lemma msgs_update_robot (g : GState) (m : List Msg) :
    ({ g with msgs := m } : GState).robot_moved = g.robot_moved := rfl

@[simp] lemma msgs_update_kfs (g : GState) (m : List Msg) (s : SensorType) :
    ({ g with msgs := m } : GState).kfs s = g.kfs s := by cases s <;> rfl

/-- Both exception exits of the Isolation-Forest section leave the
rolled-back input state. -/
lemma ifStage_error {s : SensorType} {pred : Bool} {pid : ℤ} {vals : List ℚ}
    {ts : ℤ} {fl : Option Step} {g gf : GState}
    (h : ifStage s pred pid vals ts fl g = .error gf) : gf = g.rb := by
  rw [ifStage_eq] at h
  split at h
  · split at h
    · exact (Except.error.inj h).symm
    · split at h
      · exact (Except.error.inj h).symm
      · exact absurd h (by simp)
  · exact absurd h (by simp)

/-- Normal exits of the Isolation-Forest section: either one committed row
and a true flag, or nothing and a false flag. -/
lemma ifStage_ok {s : SensorType} {pred : Bool} {pid : ℤ} {vals : List ℚ}
    {ts : ℤ} {fl : Option Step} {g g1 : GState} {a : Bool}
    (h : ifStage s pred pid vals ts fl g = .ok (g1, a)) :
    (a = true ∧ ifConfirmed s pred vals = true ∧
      g1 = commitRec g (ifRecord s pid vals ts)) ∨
    (a = false ∧ ifConfirmed s pred vals = false ∧ g1 = g) := by
  rw [ifStage_eq] at h
  split at h
  · split at h
    · exact absurd h (by simp)
    · split at h
      · exact absurd h (by simp)
      · obtain ⟨h1, h2⟩ := Prod.mk.injEq .. ▸ Except.ok.inj h
        exact Or.inl ⟨h2.symm, by assumption, h1.symm⟩
  · obtain ⟨h1, h2⟩ := Prod.mk.injEq .. ▸ Except.ok.inj h
    rename_i hc
    exact Or.inr ⟨h2.symm, Bool.eq_false_iff.mpr hc, h1.symm⟩

/-- Exception exits of the Kalman section leave a rolled-back state whose
database carries the committed rows of the input. -/
lemma kfStage_error {s : SensorType} {pid : ℤ} {vals : List ℚ} {ts : ℤ}
    {fl : Option Step} {g gf : GState}
    (h : kfStage s pid vals ts fl g = .error gf) :
    gf = g.rb ∨ gf = (kfBase s vals g).rb := by
  unfold kfStage at h
  split at h
  · exact Or.inl (Except.error.inj h).symm
  · split at h
    · split at h
      · exact Or.inr (Except.error.inj h).symm
      · split at h
        · exact Or.inr (Except.error.inj h).symm
        · exact absurd h (by simp)
    · exact absurd h (by simp)

/-- Normal exits of the Kalman section. -/
lemma kfStage_ok {s : SensorType} {pid : ℤ} {vals : List ℚ} {ts : ℤ}
    {fl : Option Step} {g g2 : GState} {a : Bool}
    (h : kfStage s pid vals ts fl g = .ok (g2, a)) :
    (a = true ∧ kfConfirmed s vals (g.kfs s) = true ∧
      g2 = commitRec (kfBase s vals g) (kfRec s pid vals ts)) ∨
    (a = false ∧ kfConfirmed s vals (g.kfs s) = false ∧ g2 = kfBase s vals g) := by
  unfold kfStage at h
  split at h
  · exact absurd h (by simp)
  · split at h
    · split at h
      · exact absurd h (by simp)
      · split at h
        · exact absurd h (by simp)
        · obtain ⟨h1, h2⟩ := Prod.mk.injEq .. ▸ Except.ok.inj h
          exact Or.inl ⟨h2.symm, by assumption, h1.symm⟩
    · obtain ⟨h1, h2⟩ := Prod.mk.injEq .. ▸ Except.ok.inj h
      rename_i hc
      exact Or.inr ⟨h2.symm, Bool.eq_false_iff.mpr hc, h1.symm⟩

/-- The only exception exit of the latch section is the publish failure,
after the flags were already set. -/
lemma latchStage_error {s : SensorType} {ifA kfA : Bool} {fl : Option Step}
    {g gf : GState} (h : latchStage s ifA kfA fl g = .error gf) :
    gf = (fireFlags g).rb ∧ g.robot_moved = false ∧
      (s == .sound && ifA && kfA) = true := by
  unfold latchStage at h
  split at h
  · rename_i hc
    split at h
    · exact absurd h (by simp)
    · rename_i hr
      split at h
      · exact ⟨(Except.error.inj h).symm, Bool.eq_false_iff.mpr hr, hc⟩
      · exact absurd h (by simp)
  · exact absurd h (by simp)

/-- Normal exits of the latch section: unchanged state, or flags set and
the two messages published. -/
lemma latchStage_ok {s : SensorType} {ifA kfA : Bool} {fl : Option Step}
    {g g3 : GState} (h : latchStage s ifA kfA fl g = .ok g3) :
    (g3 = g ∧ ((s == .sound && ifA && kfA) = false ∨ g.robot_moved = true)) ∨
    (g3 = { fireFlags g with msgs := g.msgs ++ [.robotMove, .webAlert] } ∧
      g.robot_moved = false ∧ (s == .sound && ifA && kfA) = true) := by
  unfold latchStage at h
  split at h
  · rename_i hc
    split at h
    · exact Or.inl ⟨(Except.ok.inj h).symm, Or.inr (by assumption)⟩
    · rename_i hr
      split at h
      · exact absurd h (by simp)
      · exact Or.inr ⟨(Except.ok.inj h).symm, Bool.eq_false_iff.mpr hr, hc⟩
  · rename_i hc
    exact Or.inl ⟨(Except.ok.inj h).symm, Or.inl (Bool.eq_false_iff.mpr hc)⟩

/-! ### Pass-level lemmas -/

/-- Every pass either leaves both module flags unchanged or — only for the
sound sensor, only from `robot_moved = False` — sets both to `True`. -/
lemma pass_flags (s : SensorType) (c : List ℚ → Bool) (rd : Option Reading)
    (fl : Option Step) (g : GState) :
    ((runDetection s c rd fl g).robot_moved = g.robot_moved ∧
     (runDetection s c rd fl g).abnormal_detected = g.abnormal_detected) ∨
    (s = .sound ∧ g.robot_moved = false ∧
     (runDetection s c rd fl g).robot_moved = true ∧
     (runDetection s c rd fl g).abnormal_detected = true) := by
  unfold runDetection
  split
  · exact Or.inl ⟨rfl, rfl⟩
  · split
    · exact Or.inl ⟨rfl, rfl⟩
    · split
      · exact Or.inl ⟨rfl, rfl⟩
      · dsimp only
        split
        · exact Or.inl ⟨rfl, rfl⟩
        · split
          · exact Or.inl ⟨rfl, rfl⟩
          · split
            · exact Or.inl ⟨rfl, rfl⟩
            · split
              · exact Or.inl ⟨rfl, rfl⟩
              · split
                · rename_i gf hif
                  rw [ifStage_error hif]
                  exact Or.inl ⟨rfl, rfl⟩
                · rename_i g1 ifA hif
                  rcases ifStage_ok hif with ⟨_, _, hg1⟩ | ⟨_, _, hg1⟩ <;>
                    subst hg1 <;>
                    · split
                      · rename_i gf hkf
                        rcases kfStage_error hkf with hgf | hgf <;> subst hgf <;>
                          exact Or.inl ⟨by simp, by simp⟩
                      · rename_i g2 kfA hkf
                        rcases kfStage_ok hkf with ⟨_, _, hg2⟩ | ⟨_, _, hg2⟩ <;>
                          subst hg2 <;>
                          · split
                            · rename_i gf hl
                              obtain ⟨hgf, hr, hc⟩ := latchStage_error hl
                              subst hgf
                              simp only [commitRec_robot, kfBase_robot,
                                events_update_robot] at hr
                              refine Or.inr ⟨?_, hr, by simp, by simp⟩
                              simp only [Bool.and_eq_true, beq_iff_eq] at hc
                              exact hc.1.1
                            · rename_i g3 hl
                              rcases latchStage_ok hl with ⟨hg3, _⟩ | ⟨hg3, hr, hc⟩
                              · subst hg3
                                exact Or.inl ⟨by simp, by simp⟩
                              · subst hg3
                                simp only [commitRec_robot, kfBase_robot,
                                  events_update_robot] at hr
                                refine Or.inr ⟨?_, hr, by simp, by simp⟩
                                simp only [Bool.and_eq_true, beq_iff_eq] at hc
                                exact hc.1.1

/-- Database shape of an arbitrary pass started with an empty transaction:
the pass never leaves uncommitted rows, only appends to the committed
rows, appends at most one row per detection method, and every appended row
carries the fetched reading's timestamp and the pass's sensor type, with
the dedupe guard having found no prior row for that key. -/
lemma pass_db (s : SensorType) (c : List ℚ → Bool) (rd : Option Reading)
    (fl : Option Step) (g : GState) (hpend : g.db.pending = []) :
    (runDetection s c rd fl g).db.pending = [] ∧
    ∃ new : List AnomalyRecord,
      (runDetection s c rd fl g).db.committed = g.db.committed ++ new ∧
      (new.map fun rec => rec.method).Nodup ∧
      ∀ rec ∈ new, ∃ r, rd = some r ∧ rec.timestamp = r.timestamp ∧
        rec.sensor = s ∧ g.db.existsAt r.timestamp s = false := by
  unfold runDetection
  split
  · exact ⟨hpend, [], by simp, by simp, by simp⟩
  · split
    · exact ⟨by simp [hpend], [], by simp, by simp, by simp⟩
    · split
      · exact ⟨by simp [hpend], [], by simp, by simp, by simp⟩
      · rename_i r
        dsimp only
        split
        · exact ⟨by simp [hpend], [], by simp, by simp, by simp⟩
        · split
          · exact ⟨by simp [hpend], [], by simp, by simp, by simp⟩
          · rename_i hdup
            have hdup' : g.db.existsAt r.timestamp s = false :=
              Bool.eq_false_iff.mpr hdup
            have memIF : ∀ rec ∈ [ifRecord s r.patient_id r.values r.timestamp],
                ∃ r', some r = some r' ∧ rec.timestamp = r'.timestamp ∧
                  rec.sensor = s ∧ g.db.existsAt r'.timestamp s = false := by
              intro rec hrec
              simp only [List.mem_singleton] at hrec
              subst hrec
              exact ⟨r, rfl, by simp, by simp, hdup'⟩
            have memKF : ∀ rec ∈ [kfRec s r.patient_id r.values r.timestamp],
                ∃ r', some r = some r' ∧ rec.timestamp = r'.timestamp ∧
                  rec.sensor = s ∧ g.db.existsAt r'.timestamp s = false := by
              intro rec hrec
              simp only [List.mem_singleton] at hrec
              subst hrec
              exact ⟨r, rfl, by simp, by simp, hdup'⟩
            have memBoth : ∀ rec ∈ [ifRecord s r.patient_id r.values r.timestamp,
                kfRec s r.patient_id r.values r.timestamp],
                ∃ r', some r = some r' ∧ rec.timestamp = r'.timestamp ∧
                  rec.sensor = s ∧ g.db.existsAt r'.timestamp s = false := by
              intro rec hrec
              simp only [List.mem_cons, List.not_mem_nil, or_false] at hrec
              rcases hrec with hrec | hrec <;> subst hrec
              · exact ⟨r, rfl, by simp, by simp, hdup'⟩
              · exact ⟨r, rfl, by simp, by simp, hdup'⟩
            split
            · exact ⟨by simp [hpend], [], by simp, by simp, by simp⟩
            · split
              · exact ⟨by simp [hpend], [], by simp, by simp, by simp⟩
              · split
                · rename_i gf hif
                  rw [ifStage_error hif]
                  exact ⟨by simp [hpend], [], by simp, by simp, by simp⟩
                · rename_i g1 ifA hif
                  rcases ifStage_ok hif with ⟨_, _, hg1⟩ | ⟨_, _, hg1⟩ <;> subst hg1
                  · split
                    · rename_i gf hkf
                      rcases kfStage_error hkf with hgf | hgf <;> subst hgf <;>
                        exact ⟨by simp [hpend],
                          [ifRecord s r.patient_id r.values r.timestamp],
                          by simp [hpend], by simp, memIF⟩
                    · rename_i g2 kfA hkf
                      rcases kfStage_ok hkf with ⟨_, _, hg2⟩ | ⟨_, _, hg2⟩ <;> subst hg2
                      · split
                        · rename_i gf hl
                          obtain ⟨hgf, _, _⟩ := latchStage_error hl
                          subst hgf
                          exact ⟨by simp [hpend],
                            [ifRecord s r.patient_id r.values r.timestamp,
                              kfRec s r.patient_id r.values r.timestamp],
                            by simp [hpend], by simp, memBoth⟩
                        · rename_i g3 hl
                          rcases latchStage_ok hl with ⟨hg3, _⟩ | ⟨hg3, _, _⟩ <;> subst hg3 <;>
                            exact ⟨by simp [hpend],
                              [ifRecord s r.patient_id r.values r.timestamp,
                                kfRec s r.patient_id r.values r.timestamp],
                              by simp [hpend], by simp, memBoth⟩
                      · split
                        · rename_i gf hl
                          obtain ⟨hgf, _, _⟩ := latchStage_error hl
                          subst hgf
                          exact ⟨by simp [hpend],
                            [ifRecord s r.patient_id r.values r.timestamp],
                            by simp [hpend], by simp, memIF⟩
                        · rename_i g3 hl
                          rcases latchStage_ok hl with ⟨hg3, _⟩ | ⟨hg3, _, _⟩ <;> subst hg3 <;>
                            exact ⟨by simp [hpend],
                              [ifRecord s r.patient_id r.values r.timestamp],
                              by simp [hpend], by simp, memIF⟩
                  · split
                    · rename_i gf hkf
                      rcases kfStage_error hkf with hgf | hgf <;> subst hgf <;>
                        exact ⟨by simp [hpend], [], by simp, by simp, by simp⟩
                    · rename_i g2 kfA hkf
                      rcases kfStage_ok hkf with ⟨_, _, hg2⟩ | ⟨_, _, hg2⟩ <;> subst hg2
                      · split
                        · rename_i gf hl
                          obtain ⟨hgf, _, _⟩ := latchStage_error hl
                          subst hgf
                          exact ⟨by simp [hpend],
                            [kfRec s r.patient_id r.values r.timestamp],
                            by simp [hpend], by simp, memKF⟩
                        · rename_i g3 hl
                          rcases latchStage_ok hl with ⟨hg3, _⟩ | ⟨hg3, _, _⟩ <;> subst hg3 <;>
                            exact ⟨by simp [hpend],
                              [kfRec s r.patient_id r.values r.timestamp],
                              by simp [hpend], by simp, memKF⟩
                      · split
                        · rename_i gf hl
                          obtain ⟨hgf, _, _⟩ := latchStage_error hl
                          subst hgf
                          exact ⟨by simp [hpend], [], by simp, by simp, by simp⟩
                        · rename_i g3 hl
                          rcases latchStage_ok hl with ⟨hg3, _⟩ | ⟨hg3, _, _⟩ <;> subst hg3 <;>
                            exact ⟨by simp [hpend], [], by simp, by simp, by simp⟩

/-- Without an injected failure the Isolation-Forest section cannot raise. -/
lemma ifStage_none_ne_error {s : SensorType} {pred : Bool} {pid : ℤ}
    {vals : List ℚ} {ts : ℤ} {g gf : GState}
    (h : ifStage s pred pid vals ts none g = .error gf) : False := by
  rw [ifStage_eq] at h
  split at h
  · split at h
    · rename_i hx
      exact absurd hx (by decide)
    · split at h
      · rename_i hx
        exact absurd hx (by decide)
      · exact absurd h (by simp)
  · exact absurd h (by simp)

/-- Without an injected failure the Kalman section cannot raise. -/
lemma kfStage_none_ne_error {s : SensorType} {pid : ℤ} {vals : List ℚ}
    {ts : ℤ} {g gf : GState}
    (h : kfStage s pid vals ts none g = .error gf) : False := by
  unfold kfStage at h
  split at h
  · rename_i hx
    exact absurd hx (by decide)
  · split at h
    · split at h
      · rename_i hx
        exact absurd hx (by decide)
      · split at h
        · rename_i hx
          exact absurd hx (by decide)
        · exact absurd h (by simp)
    · exact absurd h (by simp)

/-- Without an injected failure the latch section cannot raise. -/
lemma latchStage_none_ne_error {s : SensorType} {ifA kfA : Bool}
    {g gf : GState} (h : latchStage s ifA kfA none g = .error gf) : False := by
  unfold latchStage at h
  split at h
  · split at h
    · exact absurd h (by simp)
    · split at h
      · rename_i hx
        exact absurd hx (by decide)
      · exact absurd h (by simp)
  · exact absurd h (by simp)

/-- Specification of a failure-free pass on a fresh (non-deduped) reading
from an OPEN latch: committed rows grow by exactly the rows of the
confirmed methods, and the two flags are set exactly when the sensor is
sound, both confirmations hold, and `robot_moved` was still False. -/
lemma pass_clean_spec (s : SensorType) (c : List ℚ → Bool) (r : Reading)
    (g : GState) (hA : g.abnormal_detected = false)
    (hpend : g.db.pending = [])
    (hdup : g.db.existsAt r.timestamp s = false) :
    (runDetection s c (some r) none g).db.committed
      = g.db.committed ++
        ((if ifConfirmed s (c r.values) r.values then
            [ifRecord s r.patient_id r.values r.timestamp] else []) ++
         (if kfConfirmed s r.values (g.kfs s) then
            [kfRec s r.patient_id r.values r.timestamp] else [])) ∧
    (runDetection s c (some r) none g).robot_moved
      = (g.robot_moved ||
          (s == .sound && ifConfirmed s (c r.values) r.values &&
            kfConfirmed s r.values (g.kfs s))) ∧
    (runDetection s c (some r) none g).abnormal_detected
      = (s == .sound && ifConfirmed s (c r.values) r.values &&
          kfConfirmed s r.values (g.kfs s) && !g.robot_moved) := by
  unfold runDetection
  rw [if_neg (by simp [hA])]
  rw [if_neg (by decide)]
  dsimp only
  rw [if_neg (by decide)]
  rw [if_neg (by simp [hdup])]
  rw [if_neg (by decide), if_neg (by decide)]
  split
  · rename_i gf hif
    exact (ifStage_none_ne_error hif).elim
  · rename_i g1 ifA hif
    rcases ifStage_ok hif with ⟨ha, hifc, hg1⟩ | ⟨ha, hifc, hg1⟩ <;>
      subst ha <;> subst hg1 <;> rw [hifc]
    · split
      · rename_i gf hkf
        exact (kfStage_none_ne_error hkf).elim
      · rename_i g2 kfA hkf
        have hkf2 := kfStage_ok hkf
        simp only [commitRec_kfs, events_update_kfs] at hkf2
        rcases hkf2 with ⟨hb, hkfc, hg2⟩ | ⟨hb, hkfc, hg2⟩ <;>
          subst hb <;> subst hg2 <;> rw [hkfc]
        · split
          · rename_i gf hl
            exact (latchStage_none_ne_error hl).elim
          · rename_i g3 hl
            rcases latchStage_ok hl with ⟨hg3, hside⟩ | ⟨hg3, hr, hcond⟩
            · subst hg3
              simp only [Bool.and_true] at hside
              rcases hside with hcondF | hrobT
              · simp only [commitRec_robot, kfBase_robot, events_update_robot,
                  commitRec_abnormal, kfBase_abnormal, events_update_abnormal] at hcondF ⊢
                refine ⟨by simp [hpend], ?_, ?_⟩
                · simp [hcondF, hifc, hkfc]
                · simp [hcondF, hA]
              · simp only [commitRec_robot, kfBase_robot, events_update_robot] at hrobT
                refine ⟨by simp [hpend], ?_, ?_⟩
                · simp [hrobT]
                · simp [hrobT, hA]
            · subst hg3
              simp only [Bool.and_true] at hcond
              simp only [commitRec_robot, kfBase_robot, events_update_robot] at hr
              refine ⟨by simp [hpend], ?_, ?_⟩
              · simp [hcond, hifc, hkfc, hr]
              · simp [hcond, hifc, hkfc, hr]
        · split
          · rename_i gf hl
            exact (latchStage_none_ne_error hl).elim
          · rename_i g3 hl
            rcases latchStage_ok hl with ⟨hg3, _⟩ | ⟨hg3, hr, hcond⟩
            · subst hg3
              refine ⟨by simp [hpend], ?_, ?_⟩
              · simp [hkfc]
              · simp [hkfc, hA]
            · simp at hcond
    · split
      · rename_i gf hkf
        exact (kfStage_none_ne_error hkf).elim
      · rename_i g2 kfA hkf
        have hkf2 := kfStage_ok hkf
        simp only [events_update_kfs] at hkf2
        rcases hkf2 with ⟨hb, hkfc, hg2⟩ | ⟨hb, hkfc, hg2⟩ <;>
          subst hb <;> subst hg2 <;> rw [hkfc]
        · split
          · rename_i gf hl
            exact (latchStage_none_ne_error hl).elim
          · rename_i g3 hl
            rcases latchStage_ok hl with ⟨hg3, _⟩ | ⟨hg3, hr, hcond⟩
            · subst hg3
              refine ⟨by simp [hpend], ?_, ?_⟩
              · simp [hifc]
              · simp [hifc, hA]
            · simp at hcond
        · split
          · rename_i gf hl
            exact (latchStage_none_ne_error hl).elim
          · rename_i g3 hl
            rcases latchStage_ok hl with ⟨hg3, _⟩ | ⟨hg3, hr, hcond⟩
            · subst hg3
              refine ⟨by simp [hpend], ?_, ?_⟩
              · simp [hifc, hkfc]
              · simp [hifc, hA]
            · simp at hcond

/-! ### Estimator arithmetic -/

lemma predict_pos {kf : KF} (h : 0 < kf.P) : 0 < kf.predict.P := by
  simp only [KF.predict, qNoise]
  linarith

lemma gain_pos {kf : KF} (h : 0 < kf.P) : 0 < kf.gain := by
  simp only [KF.gain, rNoise]
  positivity

lemma gain_lt_one {kf : KF} (h : 0 < kf.P) : kf.gain < 1 := by
  simp only [KF.gain, rNoise]
  rw [div_lt_one (by linarith)]
  linarith

lemma update_pos {kf : KF} (h : 0 < kf.P) (z : ℚ) : 0 < (kf.update z).P := by
  have h1 : kf.gain < 1 := gain_lt_one h
  simp only [KF.update]
  have : 0 < 1 - kf.gain := by linarith
  positivity

lemma cyc_pos {kf : KF} (h : 0 < kf.P) (z : ℚ) : 0 < (cyc z kf).P :=
  update_pos (predict_pos h) z

lemma iterate_cyc_pos {kf : KF} (h : 0 < kf.P) (z : ℚ) (n : ℕ) :
    0 < ((cyc z)^[n] kf).P := by
  induction n with
  | zero => exact h
  | succ n ih =>
    rw [Function.iterate_succ_apply']
    exact cyc_pos ih z

/-- One predict-then-update cycle contracts the distance of the estimate
from the measurement by the factor 1 − gain. -/
lemma cyc_x_sub (kf : KF) (z : ℚ) :
    (cyc z kf).x - z = (1 - kf.predict.gain) * (kf.x - z) := by
  simp only [cyc, KF.update, KF.predict, KF.gain]
  ring

lemma one_sub_predict_gain {kf : KF} (h : 0 < kf.P) :
    1 - kf.predict.gain = rNoise / (kf.P + qNoise + rNoise) := by
  have hq : (0 : ℚ) < qNoise := by norm_num [qNoise]
  have hr : (0 : ℚ) < rNoise := by norm_num [rNoise]
  have hden : kf.P + qNoise + rNoise ≠ 0 := by
    have : (0 : ℚ) < kf.P + qNoise + rNoise := by linarith
    exact ne_of_gt this
  simp only [KF.predict, KF.gain]
  field_simp

/-- With a positive covariance the per-cycle contraction factor is at most
2/3 (= R / (Q + R) with Q = 0.05, R = 0.1). -/
lemma cyc_resid_le {kf : KF} (h : 0 < kf.P) (z : ℚ) :
    |(cyc z kf).x - z| ≤ 2/3 * |kf.x - z| := by
  rw [cyc_x_sub, abs_mul]
  have hq : (0 : ℚ) < qNoise := by norm_num [qNoise]
  have hr : (0 : ℚ) < rNoise := by norm_num [rNoise]
  have hden : (0 : ℚ) < kf.P + qNoise + rNoise := by linarith
  have hval : 1 - kf.predict.gain = rNoise / (kf.P + qNoise + rNoise) :=
    one_sub_predict_gain h
  have habs : |1 - kf.predict.gain| ≤ 2/3 := by
    rw [hval, abs_of_pos (by positivity)]
    rw [div_le_iff₀ hden]
    simp only [qNoise, rNoise] at *
    linarith
  exact mul_le_mul_of_nonneg_right habs (abs_nonneg _)

lemma seqResid_nonneg (z : ℚ) (kf0 : KF) (n : ℕ) : 0 ≤ seqResid z kf0 n :=
  abs_nonneg _

lemma seqResid_succ_le {kf0 : KF} (h : 0 < kf0.P) (z : ℚ) (n : ℕ) :
    seqResid z kf0 (n + 1) ≤ 2/3 * seqResid z kf0 n := by
  unfold seqResid
  rw [Function.iterate_succ_apply']
  exact cyc_resid_le (iterate_cyc_pos h z (n + 1)) z

lemma seqResid_mono {kf0 : KF} (h : 0 < kf0.P) (z : ℚ) (n : ℕ) :
    seqResid z kf0 (n + 1) ≤ seqResid z kf0 n := by
  have h1 := seqResid_succ_le h z n
  have h2 := seqResid_nonneg z kf0 n
  linarith

lemma seqResid_geom {kf0 : KF} (h : 0 < kf0.P) (z : ℚ) (n : ℕ) :
    seqResid z kf0 n ≤ (2/3) ^ n * seqResid z kf0 0 := by
  induction n with
  | zero => simp
  | succ n ih =>
    calc seqResid z kf0 (n + 1) ≤ 2/3 * seqResid z kf0 n := seqResid_succ_le h z n
    _ ≤ 2/3 * ((2/3) ^ n * seqResid z kf0 0) := by
        have : (0 : ℚ) ≤ 2/3 := by norm_num
        exact mul_le_mul_of_nonneg_left ih this
    _ = (2/3) ^ (n + 1) * seqResid z kf0 0 := by ring

lemma seqResid_antitone {kf0 : KF} (h : 0 < kf0.P) (z : ℚ) {m n : ℕ}
    (hmn : m ≤ n) : seqResid z kf0 n ≤ seqResid z kf0 m := by
  induction n, hmn using Nat.le_induction with
  | base => exact le_refl _
  | succ n hmn ih => exact le_trans (seqResid_mono h z n) ih

lemma applyOp_pos {kf : KF} (h : 0 < kf.P) (op : KOp) : 0 < (applyOp kf op).P := by
  cases op with
  | predictOp => exact predict_pos h
  | updateOp z => exact update_pos h z

lemma applyOps_pos {kf : KF} (h : 0 < kf.P) (ops : List KOp) :
    0 < (applyOps kf ops).P := by
  induction ops generalizing kf with
  | nil => exact h
  | cons op ops ih =>
    rw [applyOps, List.foldl_cons]
    exact ih (applyOp_pos h op)

/-! ### Sequence-level helpers -/

@[simp] lemma runPasses_nil (g : GState) : runPasses [] g = g := rfl

@[simp] lemma runPasses_cons (inp : PassInput) (l : List PassInput) (g : GState) :
    runPasses (inp :: l) g = runPasses l (runPass g inp) := rfl

lemma runPasses_append (l1 l2 : List PassInput) (g : GState) :
    runPasses (l1 ++ l2) g = runPasses l2 (runPasses l1 g) := by
  simp [runPasses, List.foldl_append]

/-- A pass started while `abnormal_detected` is set returns immediately. -/
lemma pass_fired {g : GState} (h : g.abnormal_detected = true) (inp : PassInput) :
    runPass g inp = g := by
  unfold runPass runDetection
  simp [h]

lemma runPasses_fired {g : GState} (h : g.abnormal_detected = true)
    (l : List PassInput) : runPasses l g = g := by
  induction l with
  | nil => rfl
  | cons inp l ih =>
    rw [runPasses_cons, pass_fired h]
    exact ih

lemma pass_robot_mono {g : GState} (h : g.robot_moved = true) (inp : PassInput) :
    (runPass g inp).robot_moved = true := by
  rcases pass_flags inp.sensor inp.classify inp.reading inp.fail g with
    ⟨hr, _⟩ | ⟨_, _, hr, _⟩
  · rw [runPass, hr]
    exact h
  · rw [runPass]
    exact hr

lemma runPasses_robot_mono {g : GState} (h : g.robot_moved = true)
    (l : List PassInput) : (runPasses l g).robot_moved = true := by
  induction l generalizing g with
  | nil => exact h
  | cons inp l ih =>
    rw [runPasses_cons]
    exact ih (pass_robot_mono h inp)

lemma existsAt_false_iff {db : DB} {ts : ℤ} {s : SensorType} :
    db.existsAt ts s = false ↔
      ∀ rec ∈ db.committed ++ db.pending,
        rec.timestamp = ts → rec.sensor ≠ s := by
  unfold DB.existsAt
  rw [← Bool.not_eq_true, List.any_eq_true]
  simp only [Bool.and_eq_true, beq_iff_eq, not_exists, not_and]

/-- Invariant of the anomalies table: one pass preserves uniqueness of
(timestamp, sensor type, detection method) and leaves no open
transaction. -/
lemma inv_preserved (inp : PassInput) (g : GState)
    (h1 : ledgerKeyUnique g.db.committed) (h2 : g.db.pending = []) :
    ledgerKeyUnique (runPass g inp).db.committed ∧
    (runPass g inp).db.pending = [] := by
  obtain ⟨hp, new, hcom, hnd, hmem⟩ :=
    pass_db inp.sensor inp.classify inp.reading inp.fail g h2
  refine ⟨?_, hp⟩
  unfold runPass
  rw [hcom]
  unfold ledgerKeyUnique at h1 ⊢
  rw [List.pairwise_append]
  refine ⟨h1, ?_, ?_⟩
  · exact (List.pairwise_map.mp hnd).imp fun hne hcontra => hne hcontra.2.2
  · intro a ha b hb hcontra
    obtain ⟨r, hrsome, hts, hsens, hex⟩ := hmem b hb
    have hall := existsAt_false_iff.mp hex a (by rw [h2]; simpa using ha)
    exact hall (hcontra.1.trans hts) (hcontra.2.1.trans hsens)

/-! ### Concrete inputs used by counterexamples and witnesses -/

/-- A sound reading with rms = 0.05 and zcr = 0.03: both features outside
their confirmation bands, and both Kalman residuals above 0.001 from the
initial filter states. -/
def reading1 : Reading := ⟨1, 10, [1/20, 3/100], 100⟩

/-- A light reading with light_level = 30: Kalman residual above 1 from the
initial estimate 12. -/
def readingL : Reading := ⟨2, 10, [30], 200⟩

/-- A sound pass whose classifier reports an outlier. -/
def inpSound : PassInput := ⟨.sound, fun _ => true, some reading1, none⟩

/-- A light pass whose classifier reports an outlier. -/
def inpLight : PassInput := ⟨.light, fun _ => true, some readingL, none⟩

/-- A training CSV with exactly two rows, both labelled normal and inside
every per-sensor safe range. -/
def rows2 : List TrainRow :=
  [⟨"normal", 1/100, 1/100, 10⟩, ⟨"normal", 1/100, 1/100, 10⟩]

/-- Runtime parameters offering a fresh sound reading to every sensor. -/
def prm2 : SensorType → PassParams :=
  fun _ => ⟨fun _ => true, some reading1, none⟩

/-! ### Claims -/

/-- C8: for every estimator state and measurement, `predict()` leaves the
estimate unchanged and grows the covariance by exactly the process-noise
term; `update(z)` uses gain = P/(P + R), estimate x + gain·(z − x) and
covariance P·(1 − gain); and the pass's per-feature residual is
|x − value| taken on the post-update estimate. -/
theorem c8_estimator_contract (kf : KF) (z : ℚ) (f : Feature) (v : ℚ) :
    kf.predict.x = kf.x ∧
    kf.predict.P = kf.P + qNoise ∧
    kf.gain = kf.P / (kf.P + rNoise) ∧
    (kf.update z).x = kf.x + kf.gain * (z - kf.x) ∧
    (kf.update z).P = kf.P * (1 - kf.gain) ∧
    kalmanSweep [f] [v] [kf]
      = ([kf.predict.update v],
         if kfThreshold f < |(kf.predict.update v).x - v| then 1 else 0) :=
  ⟨rfl, rfl, rfl, rfl, mul_comm _ _, by simp [kalmanSweep]⟩

/-- C10: starting from any of the configured filters (P = 1, Q = 0.05,
R = 0.1), after every sequence of predict/update calls the covariance is
strictly positive, hence the innovation covariance S = P + R is strictly
positive (the inversion in `update` is defined) and the gain lies strictly
between 0 and 1. -/
theorem c10_covariance_safety (s : SensorType) (f : Feature) (ops : List KOp) :
    0 < (applyOps (kfInit s f) ops).P ∧
    0 < (applyOps (kfInit s f) ops).P + rNoise ∧
    0 < (applyOps (kfInit s f) ops).gain ∧
    (applyOps (kfInit s f) ops).gain < 1 := by
  have h0 : 0 < (kfInit s f).P := by
    cases s <;> cases f <;> norm_num [kfInit]
  have hP : 0 < (applyOps (kfInit s f) ops).P := applyOps_pos h0 ops
  have hr : (0 : ℚ) < rNoise := by norm_num [rNoise]
  exact ⟨hP, by linarith, gain_pos hP, gain_lt_one hP⟩

/-- C9: from any estimator state with positive covariance, feeding a
constant measurement through consecutive predict-then-update cycles makes
the sequence of post-update residuals |estimate − z| decrease
monotonically, bounded by a geometric decay toward zero (factor
R/(Q+R) = 2/3 per cycle), so it eventually drops below every positive
bound. -/
theorem c9_constant_residual_decreasing (kf0 : KF) (z : ℚ) (h : 0 < kf0.P) :
    (∀ n, seqResid z kf0 (n + 1) ≤ seqResid z kf0 n) ∧
    (∀ n, seqResid z kf0 n ≤ (2/3) ^ n * seqResid z kf0 0) ∧
    (∀ ε : ℚ, 0 < ε → ∃ N, ∀ n, N ≤ n → seqResid z kf0 n < ε) := by
  refine ⟨seqResid_mono h z, seqResid_geom h z, ?_⟩
  intro ε hε
  have h0 : 0 ≤ seqResid z kf0 0 := seqResid_nonneg z kf0 0
  have hpos : (0 : ℚ) < seqResid z kf0 0 + 1 := by linarith
  have hε' : 0 < ε / (seqResid z kf0 0 + 1) := by positivity
  obtain ⟨N, hN⟩ :=
    exists_pow_lt_of_lt_one hε' (by norm_num : (2 : ℚ)/3 < 1)
  refine ⟨N, fun n hn => ?_⟩
  have h1 : seqResid z kf0 n ≤ seqResid z kf0 N := seqResid_antitone h z hn
  have h2 : seqResid z kf0 N ≤ (2/3) ^ N * seqResid z kf0 0 :=
    seqResid_geom h z N
  have h3 : (2/3 : ℚ) ^ N * seqResid z kf0 0 < ε := by
    have ha : (2/3 : ℚ) ^ N * seqResid z kf0 0
        ≤ (ε / (seqResid z kf0 0 + 1)) * seqResid z kf0 0 :=
      mul_le_mul_of_nonneg_right (le_of_lt hN) h0
    have hb : (ε / (seqResid z kf0 0 + 1)) * seqResid z kf0 0
        < (ε / (seqResid z kf0 0 + 1)) * (seqResid z kf0 0 + 1) :=
      mul_lt_mul_of_pos_left (by linarith) hε'
    have hc : (ε / (seqResid z kf0 0 + 1)) * (seqResid z kf0 0 + 1) = ε :=
      div_mul_cancel₀ ε (ne_of_gt hpos)
    linarith
  linarith

/-- C9 witness: the configured sound/rms filter fed the constant
measurement 1 has a non-increasing post-update residual sequence. -/
theorem c9_witness :
    0 < (kfInit .sound .rms).P ∧
    seqResid 1 (kfInit .sound .rms) 1 ≤ seqResid 1 (kfInit .sound .rms) 0 :=
  ⟨by norm_num [kfInit],
   (c9_constant_residual_decreasing (kfInit .sound .rms) 1
     (by norm_num [kfInit])).1 0⟩

/-- C4: after the latch fires (`abnormal_detected` set), every further
pass for every sensor type is a complete no-op: the whole process state —
event trace (no fetch, no detector invocation), estimator states, ledger,
published messages — is untouched by any further sequence of passes. -/
theorem c4_fired_noop (inputs : List PassInput) (g : GState)
    (h : g.abnormal_detected = true) : runPasses inputs g = g :=
  runPasses_fired h inputs

/-- C4 witness: with the latch fired at startup, a sound and a light pass
change nothing. -/
theorem c4_witness :
    (fireFlags initState).abnormal_detected = true ∧
    runPasses [inpSound, inpLight] (fireFlags initState) = fireFlags initState :=
  ⟨rfl, c4_fired_noop [inpSound, inpLight] (fireFlags initState) rfl⟩

/-- C3: (1) in a failure-free pass on a fresh reading, `robot_moved` ends
true exactly when it already was true or the sensor is sound and both
detector confirmations hold (the OPEN→FIRED transition happens exactly
under the claimed condition); (2) every pass either leaves both flags
unchanged or sets both — only for sound, only from the un-fired state —
so no in-scope operation performs FIRED→OPEN; (3) a fired latch stays
fired across any pass; (4) across any sequence of passes the OPEN→FIRED
transition occurs at most once. -/
theorem c3_latch_protocol :
    (∀ (s : SensorType) (c : List ℚ → Bool) (r : Reading) (g : GState),
      g.abnormal_detected = false → g.db.pending = [] →
      g.db.existsAt r.timestamp s = false →
      (runDetection s c (some r) none g).robot_moved
        = (g.robot_moved || (s == .sound &&
            ifConfirmed s (c r.values) r.values &&
            kfConfirmed s r.values (g.kfs s)))) ∧
    (∀ (s : SensorType) (c : List ℚ → Bool) (rd : Option Reading)
        (fl : Option Step) (g : GState),
      ((runDetection s c rd fl g).robot_moved = g.robot_moved ∧
       (runDetection s c rd fl g).abnormal_detected = g.abnormal_detected) ∨
      (s = .sound ∧ g.robot_moved = false ∧
       (runDetection s c rd fl g).robot_moved = true ∧
       (runDetection s c rd fl g).abnormal_detected = true)) ∧
    (∀ (s : SensorType) (c : List ℚ → Bool) (rd : Option Reading)
        (fl : Option Step) (g : GState), g.robot_moved = true →
      (runDetection s c rd fl g).robot_moved = true) ∧
    (∀ (inputs : List PassInput) (g0 : GState) (i j : ℕ), i < j →
      (runPasses (inputs.take i) g0).robot_moved = false ∧
      (runPasses (inputs.take (i + 1)) g0).robot_moved = true →
      ¬((runPasses (inputs.take j) g0).robot_moved = false ∧
        (runPasses (inputs.take (j + 1)) g0).robot_moved = true)) := by
  refine ⟨?_, ?_, ?_, ?_⟩
  · intro s c r g hA hpend hdup
    exact (pass_clean_spec s c r g hA hpend hdup).2.1
  · intro s c rd fl g
    exact pass_flags s c rd fl g
  · intro s c rd fl g h
    exact pass_robot_mono h ⟨s, c, rd, fl⟩
  · intro inputs g0 i j hij hhyp
    obtain ⟨hi0, hi1⟩ := hhyp
    rintro ⟨hj0, hj1⟩
    have hij' : i + 1 ≤ j := hij
    have h1 : (inputs.take j).take (i + 1) = inputs.take (i + 1) := by
      rw [List.take_take, min_eq_left hij']
    have hdecomp : inputs.take j
        = inputs.take (i + 1) ++ (inputs.take j).drop (i + 1) := by
      conv_lhs => rw [← List.take_append_drop (i + 1) (inputs.take j)]
      rw [h1]
    have hfired : (runPasses (inputs.take j) g0).robot_moved = true := by
      rw [hdecomp, runPasses_append]
      exact runPasses_robot_mono hi1 _
    rw [hj0] at hfired
    exact absurd hfired (by decide)

/-- C3 witness: the fire equation instantiated on the concrete confirming
sound reading from the startup state. -/
theorem c3_witness :
    (runDetection .sound (fun _ => true) (some reading1) none
        initState).robot_moved
      = (initState.robot_moved || (SensorType.sound == SensorType.sound &&
          ifConfirmed .sound true reading1.values &&
          kfConfirmed .sound reading1.values (initState.kfs .sound))) :=
  c3_latch_protocol.1 .sound (fun _ => true) reading1 initState rfl rfl
    (by decide)

/-- C6 (amended): re-running a pass for a (timestamp, sensor type) already
present in the ledger returns at the re-entry guard right after the
fetch: no coercion, no detector, no estimator mutation, no insert, no
publish — the state is unchanged except for the recorded fetch, so the
ledger's entries for that reading stay exactly as the original pass left
them (one per confirmed detector method, possibly two — not necessarily
one). -/
theorem c6_reentry_guard (s : SensorType) (c : List ℚ → Bool) (r : Reading)
    (g : GState) (hA : g.abnormal_detected = false)
    (hdup : g.db.existsAt r.timestamp s = true) :
    runDetection s c (some r) none g
      = { g with events := g.events ++ [.fetchEv] } := by
  unfold runDetection
  rw [if_neg (by simp [hA]), if_neg (by decide)]
  dsimp only
  rw [if_neg (by decide)]
  rw [if_pos hdup]

/-- C7: in a failure-free pass whose classifier returns an outlier
verdict: for the sound sensor the verdict is confirmed — and a
classifier-tagged row appended — iff every feature value lies outside its
configured normal band; for the light sensor the verdict is confirmed
unconditionally and exactly one classifier-tagged row is appended,
whatever the estimator states and verdict. -/
theorem c7_confirmation_policy (c : List ℚ → Bool) (r : Reading)
    (g : GState) (hA : g.abnormal_detected = false)
    (hpend : g.db.pending = [])
    (hdupS : g.db.existsAt r.timestamp .sound = false)
    (hdupL : g.db.existsAt r.timestamp .light = false)
    (hpred : c r.values = true) :
    ifConfirmed .sound (c r.values) r.values
      = allOutsideBands (columns .sound) r.values ∧
    ((runDetection .sound c (some r) none g).db.committed.countP fun rec =>
        rec.method == Method.isolationForest &&
        rec.timestamp == r.timestamp && rec.sensor == SensorType.sound)
      = (if allOutsideBands (columns .sound) r.values then 1 else 0) ∧
    ((runDetection .light c (some r) none g).db.committed.countP fun rec =>
        rec.method == Method.isolationForest &&
        rec.timestamp == r.timestamp && rec.sensor == SensorType.light)
      = 1 := by
  have hcount0 : ∀ s : SensorType, g.db.existsAt r.timestamp s = false →
      (g.db.committed.countP fun rec =>
        rec.method == Method.isolationForest &&
        rec.timestamp == r.timestamp && rec.sensor == s) = 0 := by
    intro s hex
    rw [List.countP_eq_zero]
    intro a ha
    have hfresh := existsAt_false_iff.mp hex a (List.mem_append_left _ ha)
    simp only [Bool.and_eq_true, beq_iff_eq, not_and]
    intro hmt h1
    exact hfresh hmt.2 h1
  obtain ⟨hcomS, -, -⟩ := pass_clean_spec .sound c r g hA hpend hdupS
  obtain ⟨hcomL, -, -⟩ := pass_clean_spec .light c r g hA hpend hdupL
  refine ⟨by simp [ifConfirmed, hpred], ?_, ?_⟩
  · rw [hcomS, List.countP_append, List.countP_append,
      hcount0 .sound hdupS]
    by_cases hb : allOutsideBands (columns .sound) r.values <;>
      by_cases hkf : kfConfirmed .sound r.values (g.kfs .sound) <;>
      simp [ifConfirmed, hpred, hb, hkf, ifRecord, kfRec, List.countP_cons]
  · rw [hcomL, List.countP_append, List.countP_append,
      hcount0 .light hdupL]
    by_cases hkf : kfConfirmed .light r.values (g.kfs .light) <;>
      simp [ifConfirmed, hpred, hkf, ifRecord, kfRec, List.countP_cons]

/-- C7 witness: both conclusions at a concrete outlier-classified reading
from the startup state. -/
theorem c7_witness :
    ifConfirmed .sound true reading1.values
      = allOutsideBands (columns .sound) reading1.values ∧
    ((runDetection .sound (fun _ => true) (some reading1) none
        initState).db.committed.countP fun rec =>
        rec.method == Method.isolationForest &&
        rec.timestamp == reading1.timestamp &&
        rec.sensor == SensorType.sound)
      = (if allOutsideBands (columns .sound) reading1.values then 1 else 0) ∧
    ((runDetection .light (fun _ => true) (some reading1) none
        initState).db.committed.countP fun rec =>
        rec.method == Method.isolationForest &&
        rec.timestamp == reading1.timestamp &&
        rec.sensor == SensorType.light)
      = 1 :=
  c7_confirmation_policy (fun _ => true) reading1 initState rfl rfl rfl rfl rfl

/-- C5 (amended): after any sequence of detection passes from startup, no
two ledger rows share the triple (timestamp, sensor type, detection
method), and no transaction is left open.  (The pair (timestamp, sensor
type) alone is not unique: one confirming pass legitimately writes two
rows for the same reading, one per detector.) -/
theorem c5_ledger_key_unique (inputs : List PassInput) :
    ledgerKeyUnique ((runPasses inputs initState).db.committed) ∧
    (runPasses inputs initState).db.pending = [] := by
  suffices h : ∀ g : GState, ledgerKeyUnique g.db.committed →
      g.db.pending = [] →
      ledgerKeyUnique ((runPasses inputs g).db.committed) ∧
      (runPasses inputs g).db.pending = [] by
    exact h initState List.Pairwise.nil rfl
  induction inputs with
  | nil =>
    intro g h1 h2
    exact ⟨h1, h2⟩
  | cons inp l ih =>
    intro g h1 h2
    rw [runPasses_cons]
    obtain ⟨h1', h2'⟩ := inv_preserved inp g h1 h2
    exact ih _ h1' h2'

/-- C2 (amended): every failing pass is caught; the open transaction's
uncommitted writes are rolled back — the pass never leaves a pending
row — and the committed ledger only grows.  Rows already committed
earlier in the same failing pass persist (each insert commits
immediately), so a failing pass can leave its own committed row behind. -/
theorem c2_failure_rollback (s : SensorType) (c : List ℚ → Bool)
    (rd : Option Reading) (st : Step) (g : GState)
    (hpend : g.db.pending = []) :
    (runDetection s c rd (some st) g).db.pending = [] ∧
    ∃ new, (runDetection s c rd (some st) g).db.committed
      = g.db.committed ++ new := by
  obtain ⟨h1, new, h2, -, -⟩ := pass_db s c rd (some st) g hpend
  exact ⟨h1, new, h2⟩

/-- C2 witness: the rollback facts at the concrete failing sound pass. -/
theorem c2_witness :
    initState.db.pending = [] ∧
    ((runDetection .sound (fun _ => true) (some reading1)
        (some .kalmanLoop) initState).db.pending = [] ∧
     ∃ new, (runDetection .sound (fun _ => true) (some reading1)
        (some .kalmanLoop) initState).db.committed
        = initState.db.committed ++ new) :=
  ⟨rfl, c2_failure_rollback .sound (fun _ => true) (some reading1)
    .kalmanLoop initState rfl⟩

/-- C1 (amended): training on fewer than 3 filtered normal samples fails
without an unhandled exception — `train_model` returns None, the
classifier stays untrained — but the main loop then skips that sensor
entirely (`if sensor in models`): no estimator-only detection pass runs
for it; only the other sensor (when trained) is processed. -/
theorem c1_training_skips_sensor (rows : List TrainRow)
    (prm : SensorType → PassParams) (g : GState)
    (h : (trainFilter .sound rows).length < 3) :
    train_model .sound rows = none ∧
    mainLoop rows prm g
      = (if (train_model .light rows).isSome then
          runDetection .light (prm .light).classify (prm .light).reading
            (prm .light).fail g
        else g) := by
  have ht : train_model .sound rows = none := by
    unfold train_model
    rw [if_neg (by omega)]
  refine ⟨ht, ?_⟩
  simp only [mainLoop, sensorOrder, List.foldl_cons, List.foldl_nil, ht,
    Option.isSome_none, Bool.false_eq_true, if_false]

section

attribute [local semireducible] Rat.add Rat.mul Rat.sub Rat.inv

/-- C5 counterexample: one failure-free confirming sound pass commits two
rows — one per detector — sharing (timestamp 100, sound), so the claimed
(timestamp, sensor type) uniqueness fails on the code. -/
theorem c5_counterexample :
    ¬ List.Pairwise
      (fun a b => ¬(a.timestamp = b.timestamp ∧ a.sensor = b.sensor))
      ((runPasses [inpSound] initState).db.committed) := by decide

/-- C6 counterexample: the first light pass commits two rows (classifier
and estimator) for (timestamp 200, light); re-running the identical pass
inserts nothing, and the ledger ends with two entries for that reading —
not the single entry the claim asserts. -/
theorem c6_counterexample :
    ((runPasses [inpLight, inpLight] initState).db.committed.countP
      fun rec => rec.timestamp == 200 && rec.sensor == SensorType.light)
      = 2 := by decide

/-- C6 witness: re-running the concrete light pass after it already wrote
its rows only records the fetch and changes nothing else. -/
theorem c6_witness :
    runDetection .light (fun _ => true) (some readingL) none
        (runPasses [inpLight] initState)
      = { runPasses [inpLight] initState with
          events := (runPasses [inpLight] initState).events ++ [.fetchEv] } :=
  c6_reentry_guard .light (fun _ => true) readingL
    (runPasses [inpLight] initState) (by decide) (by decide)

/-- C2 counterexample: injecting the failure in the Kalman section, after
the Isolation-Forest row was inserted and committed, leaves that row in
the ledger — the handler's rollback cannot undo a committed write, so an
AnomalyRecord of the failing pass remains. -/
theorem c2_counterexample :
    initState.db.committed = [] ∧
    (runDetection .sound (fun _ => true) (some reading1)
        (some .kalmanLoop) initState).db.committed
      = [ifRecord .sound 10 reading1.values 100] :=
  ⟨rfl, by decide⟩

/-- C1 counterexample: with only two filtered normal samples, training
returns None for both sensors and the main loop runs no detection pass at
all — the process state (event trace, estimators, ledger) is untouched
even though a fresh reading is available, so estimator-only detection
does not continue for the sensor. -/
theorem c1_counterexample :
    train_model .sound rows2 = none ∧
    mainLoop rows2 prm2 initState = initState :=
  ⟨by decide, by decide⟩

/-- C1 witness: the amended statement at the concrete two-row training
set. -/
theorem c1_witness :
    (trainFilter .sound rows2).length < 3 ∧
    (train_model .sound rows2 = none ∧
     mainLoop rows2 prm2 initState
       = (if (train_model .light rows2).isSome then
           runDetection .light (prm2 .light).classify (prm2 .light).reading
             (prm2 .light).fail initState
         else initState)) :=
  ⟨by decide, c1_training_skips_sensor rows2 prm2 initState (by decide)⟩

end

end DataFiltering
